import Mathlib

/-!
Verification of the u-root physical-memory access library (memio) and the
assisted-bootloader entry point.

The memio accessor/mapper/typed-value subsystem is modelled from the spec
(its implementation file is not part of the staged sources; only its test
file is), in namespace `MemModel`.  The assisted-bootloader `main`,
`getToken` and `accessTokenFromRefresh` are embedded from the source in
namespace `Boot`.
-/

namespace MemModel

/-- Modelled from the spec: the system page size used by the memory mapper
("one system page"); the conventional value 4096 bytes. -/
def pageSize : Nat := 4096

/-- Supported widths of a Typed Value: 1, 2, 4 or 8 bytes. -/
inductive Width where
  | w1
  | w2
  | w4
  | w8
  deriving DecidableEq

/-- Number of bytes of a width. -/
def Width.bytes : Width → Nat
  | .w1 => 1
  | .w2 => 2
  | .w4 => 4
  | .w8 => 8

/-- Modelled from the spec: a Typed Value (the source's UintN family
Uint8/Uint16/Uint32/Uint64): a declared width `W` and a numeric payload
sized to `W`.  The payload invariant `val < 256 ^ width.bytes` is carried
as a hypothesis where it matters. -/
structure UintN where
  width : Width
  val : Nat
  deriving DecidableEq

/-- Little-endian serialization of `v` into `n` bytes. -/
def toBytesAux : Nat → Nat → List Nat
  | 0, _ => []
  | n + 1, v => v % 256 :: toBytesAux n (v / 256)

/-- Little-endian deserialization of a byte sequence into a number. -/
def fromBytesAux : List Nat → Nat
  | [] => 0
  | b :: bs => b + 256 * fromBytesAux bs

/-- Modelled from the spec: `ToBytes` serializes the current payload; the
result's length always equals the declared width. -/
def UintN.toBytes (u : UintN) : List Nat :=
  toBytesAux u.width.bytes u.val

/-- Classification of a failure to open the device file: the path does not
exist, or a distinct permission/other condition. -/
inductive OpenFailure where
  | notFound
  | permission
  deriving DecidableEq

/-- Modelled from the spec: the error taxonomy of the memio core:
PathError (with a "not found" sub-kind), WidthMismatch, MapError and
UnmapError. -/
inductive MemErr where
  | pathError (kind : OpenFailure)
  | widthMismatch (got expected : Nat)
  | mapError (msg : String)
  | unmapError (msg : String)
  deriving DecidableEq

/-- Message of an error, the analogue of Go's `err.Error()`: an injected
map/unmap failure surfaces its message verbatim. -/
def MemErr.message : MemErr → String
  | .pathError .notFound => "no such file or directory"
  | .pathError .permission => "permission denied"
  | .widthMismatch _ _ => "width mismatch"
  | .mapError m => m
  | .unmapError m => m

/-- Modelled from the spec: `FromBytes` deserializes `seq` into the payload;
fails with a WidthMismatch error if `len(seq) ≠ W`; otherwise always
succeeds and fully overwrites the prior payload.  It is a pure function:
it takes no environment, opens no file and maps nothing. -/
def UintN.fromBytes (u : UintN) (seq : List Nat) : Except MemErr UintN :=
  if seq.length = u.width.bytes then
    .ok ⟨u.width, fromBytesAux seq⟩
  else
    .error (.widthMismatch seq.length u.width.bytes)

/-- The backing store's contents: the byte at each physical offset. -/
abbrev Mem := Nat → Nat

/-- Store byte `b` at offset `i`. -/
def setByte (m : Mem) (i b : Nat) : Mem :=
  fun j => if j = i then b else m j

/-- Store the byte list `L` at consecutive offsets starting at `a`. -/
def writeBytes (m : Mem) (a : Nat) : List Nat → Mem
  | [] => m
  | b :: bs => writeBytes (setByte m a b) (a + 1) bs

/-- Load `n` consecutive bytes starting at offset `a`. -/
def readBytes (m : Mem) (a : Nat) : Nat → List Nat
  | 0 => []
  | n + 1 => m a :: readBytes m (a + 1) n

/-- Base of the page containing `addr`: `addr` rounded down to a page
boundary, computed as `addr − (addr mod pageSize)`. -/
def baseOf (addr : Nat) : Nat := addr - addr % pageSize

/-- Offset of `addr` within its mapped region: `addr − base`. -/
def offsetOf (addr : Nat) : Nat := addr - baseOf addr

/-- Modelled from the spec: length of the mapped Memory Region: one system
page, extended if the requested `w`-byte access would otherwise cross a
page boundary. -/
def regionLen (addr w : Nat) : Nat :=
  if offsetOf addr + w > pageSize then offsetOf addr + w else pageSize

theorem baseOf_add_offsetOf (addr : Nat) : baseOf addr + offsetOf addr = addr := by
  simp only [offsetOf, baseOf, pageSize]
  omega

theorem toBytesAux_length (n : Nat) : ∀ v, (toBytesAux n v).length = n := by
  induction n with
  | zero => intro v; rfl
  | succ n ih => intro v; simp [toBytesAux, ih]

theorem readBytes_length (n : Nat) : ∀ (m : Mem) (a : Nat), (readBytes m a n).length = n := by
  induction n with
  | zero => intro m a; rfl
  | succ n ih => intro m a; simp [readBytes, ih]

theorem fromBytesAux_toBytesAux (n : Nat) :
    ∀ v, v < 256 ^ n → fromBytesAux (toBytesAux n v) = v := by
  induction n with
  | zero =>
    intro v hv
    simp [pow_zero] at hv
    simp [toBytesAux, fromBytesAux, hv]
  | succ n ih =>
    intro v hv
    have hdiv : v / 256 < 256 ^ n := by
      apply Nat.div_lt_of_lt_mul
      calc v < 256 ^ (n + 1) := hv
        _ = 256 * 256 ^ n := by ring
    simp only [toBytesAux, fromBytesAux, ih (v / 256) hdiv]
    omega

theorem writeBytes_lt (L : List Nat) :
    ∀ (m : Mem) (a j : Nat), j < a → writeBytes m a L j = m j := by
  induction L with
  | nil => intro m a j _; rfl
  | cons b bs ih =>
    intro m a j hj
    simp only [writeBytes]
    rw [ih _ (a + 1) j (by omega)]
    simp only [setByte]
    rw [if_neg (by omega)]

theorem readBytes_writeBytes (L : List Nat) :
    ∀ (m : Mem) (a : Nat), readBytes (writeBytes m a L) a L.length = L := by
  induction L with
  | nil => intro m a; rfl
  | cons b bs ih =>
    intro m a
    simp only [List.length_cons, readBytes, writeBytes]
    rw [writeBytes_lt bs _ (a + 1) a (by omega), ih]
    simp [setByte]

/-- Modelled from the spec: the environment one Read/Write call runs
against: how opening the configured device path turns out (`none` = the
open succeeds), the backing store (its length and contents), and the
fault-injection seams for the swappable Mmap and Munmap primitives
(`some e` = the substituted primitive always fails with message `e`,
`none` = the real primitive). -/
structure Env where
  openResult : Option OpenFailure
  storeLen : Nat
  mem : Mem
  mmapFail : Option String
  munmapFail : Option String

/-- Lifecycle events of one Read/Write call, in the order they happen. -/
inductive Event where
  | opened
  | openFailed
  | mapped
  | mapFailed
  | transferred
  | unmapped
  | unmapFailed
  | closed
  deriving DecidableEq

/-- Outcome of one Read/Write call: the returned error (`none` = success),
the backing store's contents after the call, the Typed Value after the
call (for Read the value read; otherwise the input), and the trace of
lifecycle events. -/
structure RWResult where
  err : Option MemErr
  mem : Mem
  out : UintN
  trace : List Event

/-- Modelled from the spec: the common path of Read and Write.  Open the
device file (failure yields a PathError and nothing to unmap); compute
`base = addr − (addr mod pageSize)` and `inOffset = addr − base`; map the
region (an injected Mmap failure, or a region that does not fit in the
backing store, yields a MapError and the handle is closed); copy the bytes
(into the store at `base + inOffset` for Write, out of it via `FromBytes`
for Read); unconditionally unmap — an unmap failure takes precedence over
a successful copy, while a copy failure is preserved over an unmap
failure; close the handle after unmap regardless of unmap's outcome. -/
def pathRW (env : Env) (addr : Nat) (data : UintN) (isWrite : Bool) : RWResult :=
  match env.openResult with
  | some f =>
    { err := some (.pathError f), mem := env.mem, out := data, trace := [.openFailed] }
  | none =>
    match env.mmapFail with
    | some e =>
      { err := some (.mapError e), mem := env.mem, out := data,
        trace := [.opened, .mapFailed, .closed] }
    | none =>
      if baseOf addr + regionLen addr data.width.bytes ≤ env.storeLen then
        match (if isWrite then Except.ok data
               else data.fromBytes
                 (readBytes env.mem (baseOf addr + offsetOf addr) data.width.bytes)) with
        | .error ce =>
          { err := some ce, mem := env.mem, out := data,
            trace := [.opened, .mapped,
              (match env.munmapFail with
               | some _ => Event.unmapFailed
               | none => Event.unmapped), .closed] }
        | .ok out1 =>
          match env.munmapFail with
          | some e =>
            { err := some (.unmapError e),
              mem := if isWrite then
                  writeBytes env.mem (baseOf addr + offsetOf addr) data.toBytes
                else env.mem,
              out := out1,
              trace := [.opened, .mapped, .transferred, .unmapFailed, .closed] }
          | none =>
            { err := none,
              mem := if isWrite then
                  writeBytes env.mem (baseOf addr + offsetOf addr) data.toBytes
                else env.mem,
              out := out1,
              trace := [.opened, .mapped, .transferred, .unmapped, .closed] }
      else
        { err := some (.mapError "mmap failed"), mem := env.mem, out := data,
          trace := [.opened, .mapFailed, .closed] }

/-- Modelled from the spec: the public Write entry point: writes the Typed
Value `data` at physical address `addr` through the memory mapper. -/
def Write (env : Env) (addr : Nat) (data : UintN) : RWResult :=
  pathRW env addr data true

/-- Modelled from the spec: the public Read entry point: reads a Typed
Value of `data`'s width at physical address `addr` through the memory
mapper; `data` supplies the declared width and is overwritten. -/
def Read (env : Env) (addr : Nat) (data : UintN) : RWResult :=
  pathRW env addr data false

theorem fromBytes_readBytes (u : UintN) (m : Mem) (a : Nat) :
    u.fromBytes (readBytes m a u.width.bytes) =
      .ok ⟨u.width, fromBytesAux (readBytes m a u.width.bytes)⟩ := by
  simp [UintN.fromBytes, readBytes_length]

theorem pathRW_write_success (env : Env) (addr : Nat) (data : UintN)
    (h1 : env.openResult = none) (h2 : env.mmapFail = none) (h3 : env.munmapFail = none)
    (h4 : baseOf addr + regionLen addr data.width.bytes ≤ env.storeLen) :
    pathRW env addr data true =
      { err := none,
        mem := writeBytes env.mem addr data.toBytes,
        out := data,
        trace := [.opened, .mapped, .transferred, .unmapped, .closed] } := by
  simp [pathRW, h1, h2, h3, h4, baseOf_add_offsetOf]

theorem pathRW_read_success (env : Env) (addr : Nat) (data : UintN)
    (h1 : env.openResult = none) (h2 : env.mmapFail = none) (h3 : env.munmapFail = none)
    (h4 : baseOf addr + regionLen addr data.width.bytes ≤ env.storeLen) :
    pathRW env addr data false =
      { err := none,
        mem := env.mem,
        out := ⟨data.width, fromBytesAux (readBytes env.mem addr data.width.bytes)⟩,
        trace := [.opened, .mapped, .transferred, .unmapped, .closed] } := by
  simp [pathRW, h1, h2, h3, h4, fromBytes_readBytes, baseOf_add_offsetOf]

theorem trace_cases (env : Env) (addr : Nat) (v : UintN) (isWrite : Bool) :
    (pathRW env addr v isWrite).trace = [Event.openFailed] ∨
    (pathRW env addr v isWrite).trace = [.opened, .mapFailed, .closed] ∨
    (pathRW env addr v isWrite).trace = [.opened, .mapped, .unmapped, .closed] ∨
    (pathRW env addr v isWrite).trace = [.opened, .mapped, .unmapFailed, .closed] ∨
    (pathRW env addr v isWrite).trace = [.opened, .mapped, .transferred, .unmapped, .closed] ∨
    (pathRW env addr v isWrite).trace = [.opened, .mapped, .transferred, .unmapFailed, .closed] := by
  unfold pathRW
  split
  · simp
  · split
    · simp
    · split
      · split
        · rcases env.munmapFail with _ | e <;> simp
        · split <;> simp
      · simp

/-- Environment for the concrete round-trip scenario: a healthy backing
store of 0x1001000 bytes, all zero, with the real map and unmap
primitives. -/
def env0 : Env :=
  { openResult := none, storeLen := 0x1001000, mem := fun _ => 0,
    mmapFail := none, munmapFail := none }

/-- Environment echoing the unmap-failure test: a 10000-byte backing
store with Munmap substituted to always fail. -/
def env1 : Env :=
  { openResult := none, storeLen := 10000, mem := fun _ => 0,
    mmapFail := none, munmapFail := some "This is a dummy error" }

/-- C1: for every width W in {1,2,4,8}, every value v of width W and every
address whose mapped region fits in the backing store (at least one page),
Write(a, v) followed by Read(a) into a Typed Value of the same width
yields a value equal to v. -/
theorem write_read_roundtrip (env : Env) (addr : Nat) (v : UintN)
    (hval : v.val < 256 ^ v.width.bytes)
    (h1 : env.openResult = none) (h2 : env.mmapFail = none) (h3 : env.munmapFail = none)
    (h4 : baseOf addr + regionLen addr v.width.bytes ≤ env.storeLen) :
    (Write env addr v).err = none ∧
    (Read { env with mem := (Write env addr v).mem } addr ⟨v.width, 0⟩).err = none ∧
    (Read { env with mem := (Write env addr v).mem } addr ⟨v.width, 0⟩).out = v := by
  have hw := pathRW_write_success env addr v h1 h2 h3 h4
  have hr := pathRW_read_success { env with mem := (Write env addr v).mem } addr
    ⟨v.width, 0⟩ h1 h2 h3 h4
  refine ⟨by simp [Write, hw], by simp [Read, hr], ?_⟩
  simp only [Read] at hr ⊢
  rw [hr]
  simp only [Write, hw]
  have hlen : v.width.bytes = (v.toBytes).length := (toBytesAux_length _ _).symm
  conv_lhs => rw [hlen]
  rw [readBytes_writeBytes]
  cases v with
  | mk w val =>
    simp only [UintN.toBytes]
    simp [fromBytesAux_toBytesAux _ _ hval]

/-- Witness for C1: the spec's concrete scenario, the 32-bit value 42
written to 0x1000000 and read back. -/
theorem write_read_roundtrip_witness :
    (Write env0 0x1000000 ⟨Width.w4, 42⟩).err = none ∧
    (Read { env0 with mem := (Write env0 0x1000000 ⟨Width.w4, 42⟩).mem }
      0x1000000 ⟨Width.w4, 0⟩).err = none ∧
    (Read { env0 with mem := (Write env0 0x1000000 ⟨Width.w4, 42⟩).mem }
      0x1000000 ⟨Width.w4, 0⟩).out = ⟨Width.w4, 42⟩ :=
  write_read_roundtrip env0 0x1000000 ⟨Width.w4, 42⟩ (by decide) rfl rfl rfl (by decide)

/-- C2: with the unmap primitive substituted to always fail with E, a
Write whose open, map and copy steps all succeed still returns an error
whose message equals E, even though the bytes were transferred into the
backing store; the same holds for Read. -/
theorem unmap_failure_propagation (env : Env) (addr : Nat) (v : UintN) (E : String)
    (h1 : env.openResult = none) (h2 : env.mmapFail = none)
    (h3 : env.munmapFail = some E)
    (h4 : baseOf addr + regionLen addr v.width.bytes ≤ env.storeLen) :
    (Write env addr v).err = some (.unmapError E) ∧
    (Write env addr v).err.map MemErr.message = some E ∧
    (Write env addr v).mem = writeBytes env.mem addr v.toBytes ∧
    (Read env addr v).err = some (.unmapError E) := by
  simp [Read, Write, pathRW, h1, h2, h3, h4, baseOf_add_offsetOf,
    fromBytes_readBytes, MemErr.message]

/-- Witness for C2: the dummy unmap error of the tests is returned by a
Write of 0x12 at address 0x10 against a healthy 10000-byte store. -/
theorem unmap_failure_propagation_witness :
    (Write env1 0x10 ⟨Width.w1, 0x12⟩).err = some (.unmapError "This is a dummy error") ∧
    (Write env1 0x10 ⟨Width.w1, 0x12⟩).err.map MemErr.message = some "This is a dummy error" ∧
    (Write env1 0x10 ⟨Width.w1, 0x12⟩).mem =
      writeBytes env1.mem 0x10 (UintN.toBytes ⟨Width.w1, 0x12⟩) ∧
    (Read env1 0x10 ⟨Width.w1, 0x12⟩).err = some (.unmapError "This is a dummy error") :=
  unmap_failure_propagation env1 0x10 ⟨Width.w1, 0x12⟩ "This is a dummy error"
    rfl rfl rfl (by decide)

/-- C3: with the map primitive substituted to always fail with E, Read and
Write both return a MapError carrying E, and no bytes are transferred in
either direction: the store and the Typed Value are unchanged. -/
theorem map_failure_propagation (env : Env) (addr : Nat) (v : UintN) (E : String)
    (h1 : env.openResult = none) (h2 : env.mmapFail = some E) :
    (Write env addr v).err = some (.mapError E) ∧
    (Read env addr v).err = some (.mapError E) ∧
    (Write env addr v).err.map MemErr.message = some E ∧
    (Write env addr v).mem = env.mem ∧
    (Read env addr v).mem = env.mem ∧
    (Read env addr v).out = v := by
  simp [Read, Write, pathRW, h1, h2, MemErr.message]

/-- Environment echoing the map-failure test: the map primitive is
substituted to always fail with the dummy error. -/
def env2 : Env :=
  { openResult := none, storeLen := 10000, mem := fun _ => 0,
    mmapFail := some "This is a dummy error", munmapFail := none }

/-- Witness for C3 at a concrete environment and address. -/
theorem map_failure_propagation_witness :
    (Write env2 0x10 ⟨Width.w1, 0x12⟩).err = some (.mapError "This is a dummy error") ∧
    (Read env2 0x10 ⟨Width.w1, 0x12⟩).err = some (.mapError "This is a dummy error") ∧
    (Write env2 0x10 ⟨Width.w1, 0x12⟩).err.map MemErr.message = some "This is a dummy error" ∧
    (Write env2 0x10 ⟨Width.w1, 0x12⟩).mem = env2.mem ∧
    (Read env2 0x10 ⟨Width.w1, 0x12⟩).mem = env2.mem ∧
    (Read env2 0x10 ⟨Width.w1, 0x12⟩).out = ⟨Width.w1, 0x12⟩ :=
  map_failure_propagation env2 0x10 ⟨Width.w1, 0x12⟩ "This is a dummy error" rfl rfl

/-- C4: if the configured device path does not exist, both Read and Write
fail with a PathError classified as "not found", independent of the
address and width supplied. -/
theorem path_error_not_found (env : Env) (addr : Nat) (v : UintN)
    (h : env.openResult = some .notFound) :
    (Write env addr v).err = some (.pathError .notFound) ∧
    (Read env addr v).err = some (.pathError .notFound) := by
  simp [Read, Write, pathRW, h]

/-- Environment echoing the invalid-path test: the device path names a
file that does not exist, so the open step fails as "not found". -/
def env3 : Env :=
  { openResult := some .notFound, storeLen := 0, mem := fun _ => 0,
    mmapFail := none, munmapFail := none }

/-- Witness for C4: the spec's concrete scenario, Write(0x1000000, Uint32(1))
against a nonexistent path returns a "not found" PathError. -/
theorem path_error_not_found_witness :
    (Write env3 0x1000000 ⟨Width.w4, 1⟩).err = some (.pathError .notFound) ∧
    (Read env3 0x1000000 ⟨Width.w4, 1⟩).err = some (.pathError .notFound) :=
  path_error_not_found env3 0x1000000 ⟨Width.w4, 1⟩ rfl

/-- C5: FromBytes on a Typed Value of width W fails with a WidthMismatch
error precisely when the byte sequence's length differs from W; when the
length equals W it always succeeds and the result is fully determined by
the sequence, regardless of the prior payload.  FromBytes is a pure
function of the value and the sequence: it takes no environment, so no
file is opened and no mapping is attempted before the check. -/
theorem fromBytes_width_spec (u : UintN) (seq : List Nat) :
    (seq.length ≠ u.width.bytes →
      u.fromBytes seq = .error (.widthMismatch seq.length u.width.bytes)) ∧
    (seq.length = u.width.bytes →
      ∀ u' : UintN, u'.width = u.width →
        u'.fromBytes seq = .ok ⟨u.width, fromBytesAux seq⟩) := by
  constructor
  · intro h
    simp [UintN.fromBytes, h]
  · intro h u' hw
    simp [UintN.fromBytes, hw, h]

/-- Witness for C5: a 3-byte sequence against a 4-byte value is rejected
with a WidthMismatch naming both lengths. -/
theorem fromBytes_width_spec_witness :
    UintN.fromBytes ⟨Width.w4, 7⟩ [1, 2, 3] = .error (.widthMismatch 3 4) :=
  (fromBytes_width_spec ⟨Width.w4, 7⟩ [1, 2, 3]).1 (by decide)

/-- C6: for every address and width the mapper computes
base = addr − (addr mod pageSize) and inOffset = addr − base, and the
mapped region satisfies inOffset + W ≤ length. -/
theorem region_invariant (addr : Nat) (w : Width) :
    baseOf addr = addr - addr % pageSize ∧
    offsetOf addr = addr - baseOf addr ∧
    offsetOf addr + w.bytes ≤ regionLen addr w.bytes := by
  refine ⟨rfl, rfl, ?_⟩
  unfold regionLen
  split
  · omega
  · omega

/-- C7: in every call, a region that was mapped is unmapped (or its unmap
fails) before the call returns, the last event of any call that opened the
device is the close of the handle (after the unmap step regardless of its
outcome), and a call that never opened the device failed at the open step
with nothing to unmap. -/
theorem call_lifecycle (env : Env) (addr : Nat) (v : UintN) (isWrite : Bool) :
    (Event.mapped ∈ (pathRW env addr v isWrite).trace →
      (Event.unmapped ∈ (pathRW env addr v isWrite).trace ∨
       Event.unmapFailed ∈ (pathRW env addr v isWrite).trace) ∧
      (pathRW env addr v isWrite).trace.getLast? = some Event.closed) ∧
    (Event.opened ∈ (pathRW env addr v isWrite).trace →
      (pathRW env addr v isWrite).trace.getLast? = some Event.closed) ∧
    (Event.opened ∉ (pathRW env addr v isWrite).trace →
      (pathRW env addr v isWrite).trace = [Event.openFailed]) := by
  rcases trace_cases env addr v isWrite with h | h | h | h | h | h <;> rw [h] <;> decide

/-- Witness for C7: the unmap-failure write call maps, fails to unmap and
still closes the handle last. -/
theorem call_lifecycle_witness :
    (Event.unmapped ∈ (pathRW env1 0x10 ⟨Width.w1, 0x12⟩ true).trace ∨
     Event.unmapFailed ∈ (pathRW env1 0x10 ⟨Width.w1, 0x12⟩ true).trace) ∧
    (pathRW env1 0x10 ⟨Width.w1, 0x12⟩ true).trace.getLast? = some Event.closed :=
  (call_lifecycle env1 0x10 ⟨Width.w1, 0x12⟩ true).1 (by decide)

end MemModel

namespace Boot

/-- The Red Hat SSO token endpoint, the source's `rhSSOTokenUrl`. -/
def rhSSOTokenUrl : String :=
  "https://sso.redhat.com/auth/realms/redhat-external/protocol/openid-connect/token"

/-- Go's strings.TrimSuffix(s, "\n"): drops one trailing newline when
present, otherwise returns the string unchanged (a one-character suffix is
present exactly when it is the last character). -/
def trimSuffixNewline (s : String) : String :=
  if s.data.getLast? = some '\n' then ⟨s.data.dropLast⟩ else s

/-- TLS client configuration, as in the source's tls.Config literal. -/
structure TLSConfig where
  insecureSkipVerify : Bool

/-- HTTP transport holding its TLS client configuration. -/
structure Transport where
  tlsClientConfig : TLSConfig

/-- An HTTP client holding its transport. -/
structure HTTPClient where
  transport : Transport

/-- The package-level httpClient from the source: a client whose transport
sets TLSClientConfig.InsecureSkipVerify to true. -/
def httpClient : HTTPClient :=
  { transport := { tlsClientConfig := { insecureSkipVerify := true } } }

/-- Externally visible actions of the bootloader: reading a file, issuing
an HTTP POST through a client whose transport skips (or not) certificate
verification, and a DHCP exchange. -/
inductive NetEvent where
  | fileRead (path : String)
  | httpPost (url : String) (insecureSkipVerify : Bool)
  | dhcp
  deriving DecidableEq

/-- Environment of one bootloader run: the parsed flag values bound by
flag.Parse, the readable files (`none` = the read fails), and the outcome
of the SSO exchange for a given refresh token (the HTTP response body
decoding is abstracted into this function). -/
structure BootEnv where
  tokenFileFlag : String
  refreshTokenFileFlag : String
  infraEnvIDFileFlag : String
  files : String → Option String
  exchange : String → Except String String

/-- Embeds accessTokenFromRefresh from the source: posts the refresh-token
form to the identity provider URL through the package-level httpClient and
returns the access token decoded from the JSON response (the network and
decoding outcome is `env.exchange`). -/
def accessTokenFromRefresh (env : BootEnv) (refreshToken identityProviderUrl : String) :
    Except String String × List NetEvent :=
  (env.exchange refreshToken,
   [.httpPost identityProviderUrl httpClient.transport.tlsClientConfig.insecureSkipVerify])

/-- Embeds getToken from the source: when the token-file flag is non-empty,
read that file and return its contents with one trailing newline trimmed;
only when it is empty, read the refresh-token file and exchange its
trimmed contents for an access token at the Red Hat SSO endpoint. -/
def getToken (env : BootEnv) : Except String String × List NetEvent :=
  if env.tokenFileFlag ≠ "" then
    match env.files env.tokenFileFlag with
    | none =>
      (.error ("failed reading the token file " ++ env.tokenFileFlag),
       [.fileRead env.tokenFileFlag])
    | some data =>
      (.ok (trimSuffixNewline data), [.fileRead env.tokenFileFlag])
  else
    match env.files env.refreshTokenFileFlag with
    | none =>
      (.error ("failed reading the refresh token file " ++ env.refreshTokenFileFlag),
       [.fileRead env.refreshTokenFileFlag])
    | some data =>
      ((accessTokenFromRefresh env (trimSuffixNewline data) rhSSOTokenUrl).1,
       .fileRead env.refreshTokenFileFlag ::
         (accessTokenFromRefresh env (trimSuffixNewline data) rhSSOTokenUrl).2)

/-- The usage message of the source's log.Fatalf guard. -/
def usageMsg : String :=
  "specify one of tokenFile or refreshTokenFile and infraEnvIDFile. Pass -tokenFile /file and -inrfaEnvID /file"

/-- Outcome of main's start: a fatal log message, or control proceeding
past the flag guard. -/
inductive MainOutcome where
  | fatal (msg : String)
  | proceeded
  deriving DecidableEq

/-- Embeds the start of main: after flag.Parse, the guard
`(*tokenFile == "" && *refreshTokenFile == "") || *infraEnvIDFile == ""`
terminates fatally before any network activity; past the guard, main runs
dhclient over the interfaces, reads the infra-env-id file and obtains a
token (the later netboot fetch and boot menu are beyond this model). -/
def mainStart (env : BootEnv) : MainOutcome × List NetEvent :=
  if (env.tokenFileFlag = "" ∧ env.refreshTokenFileFlag = "") ∨ env.infraEnvIDFileFlag = "" then
    (.fatal usageMsg, [])
  else
    (.proceeded,
     NetEvent.dhcp :: NetEvent.fileRead env.infraEnvIDFileFlag :: (getToken env).2)

/-- A run whose token-file flag names a readable bearer-token file. -/
def bootEnv0 : BootEnv :=
  { tokenFileFlag := "/etc/token", refreshTokenFileFlag := "",
    infraEnvIDFileFlag := "/etc/infra-env-id",
    files := fun p => if p = "/etc/token" then some "tok\n" else none,
    exchange := fun _ => .error "no network" }

/-- A run with every flag left empty. -/
def bootEnvEmpty : BootEnv :=
  { tokenFileFlag := "", refreshTokenFileFlag := "", infraEnvIDFileFlag := "",
    files := fun _ => none, exchange := fun _ => .error "no network" }

/-- C8: getToken returns the trimmed contents of the bearer-token file
whenever the token-file flag is non-empty, issuing no HTTP request; only
when the token-file flag is empty does it read the refresh-token file and
exchange the refresh token at the Red Hat SSO endpoint. -/
theorem getToken_file_vs_exchange (env : BootEnv) :
    (env.tokenFileFlag ≠ "" →
      (∀ u b, NetEvent.httpPost u b ∉ (getToken env).2) ∧
      ∀ c, env.files env.tokenFileFlag = some c →
        (getToken env).1 = .ok (trimSuffixNewline c)) ∧
    (env.tokenFileFlag = "" →
      NetEvent.fileRead env.refreshTokenFileFlag ∈ (getToken env).2 ∧
      ∀ c, env.files env.refreshTokenFileFlag = some c →
        (getToken env).1 = env.exchange (trimSuffixNewline c) ∧
        NetEvent.httpPost rhSSOTokenUrl true ∈ (getToken env).2) := by
  constructor
  · intro h
    constructor
    · intro u b
      simp only [getToken, if_pos h]
      cases hf : env.files env.tokenFileFlag <;> simp
    · intro c hc
      simp [getToken, h, hc]
  · intro h
    have hcond : ¬ env.tokenFileFlag ≠ "" := by simp [h]
    constructor
    · simp only [getToken, if_neg hcond]
      cases hf : env.files env.refreshTokenFileFlag <;> simp
    · intro c hc
      simp [getToken, if_neg hcond, hc, accessTokenFromRefresh, httpClient]

/-- Witness for C8: a non-empty token-file flag returns the file's trimmed
contents and issues no HTTP request. -/
theorem getToken_file_vs_exchange_witness :
    (∀ u b, NetEvent.httpPost u b ∉ (getToken bootEnv0).2) ∧
    ∀ c, bootEnv0.files bootEnv0.tokenFileFlag = some c →
      (getToken bootEnv0).1 = .ok (trimSuffixNewline c) :=
  (getToken_file_vs_exchange bootEnv0).1 (by decide)

/-- C9: the package-level client used for the token exchange disables TLS
certificate verification, and every HTTP request issued by
accessTokenFromRefresh goes through a transport with InsecureSkipVerify
set, whatever the token and endpoint. -/
theorem exchange_insecure_tls (env : BootEnv) (t u : String) :
    httpClient.transport.tlsClientConfig.insecureSkipVerify = true ∧
    ∀ url b, NetEvent.httpPost url b ∈ (accessTokenFromRefresh env t u).2 → b = true := by
  refine ⟨rfl, ?_⟩
  intro url b hb
  simp only [accessTokenFromRefresh, httpClient, List.mem_singleton,
    NetEvent.httpPost.injEq] at hb
  exact hb.2

/-- Witness for C9 at the SSO endpoint with a concrete refresh token. -/
theorem exchange_insecure_tls_witness :
    httpClient.transport.tlsClientConfig.insecureSkipVerify = true ∧
    ∀ url b,
      NetEvent.httpPost url b ∈ (accessTokenFromRefresh bootEnvEmpty "r" rhSSOTokenUrl).2 →
      b = true :=
  exchange_insecure_tls bootEnvEmpty "r" rhSSOTokenUrl

/-- C10: main terminates fatally, before any network activity, exactly
when it is not the case that the infra-env-id-file flag is non-empty and
at least one of the token-file or refresh-token-file flags is non-empty. -/
theorem main_flag_guard (env : BootEnv) :
    mainStart env = (.fatal usageMsg, []) ↔
      ¬(env.infraEnvIDFileFlag ≠ "" ∧
        (env.tokenFileFlag ≠ "" ∨ env.refreshTokenFileFlag ≠ "")) := by
  unfold mainStart
  by_cases h : (env.tokenFileFlag = "" ∧ env.refreshTokenFileFlag = "") ∨
      env.infraEnvIDFileFlag = ""
  · rw [if_pos h]
    constructor
    · intro _
      tauto
    · intro _
      rfl
  · rw [if_neg h]
    constructor
    · intro hcontra
      exact absurd hcontra (by simp)
    · intro hneg
      exfalso
      tauto

/-- Witness for C10: with all flags empty, main fails fatally with the
usage message and performs no network activity. -/
theorem main_flag_guard_witness :
    mainStart bootEnvEmpty = (.fatal usageMsg, []) :=
  (main_flag_guard bootEnvEmpty).mpr (by decide)

end Boot
